import Mathlib

/-!
Verification of the sslko certificate pipeline (src/src/*.ts).

The TypeScript sources are shallowly embedded: JavaScript strings are Lean
strings, with the string primitives used by the code (split, startsWith,
substring, trim, includes, join) re-implemented over character lists so that
all definitions are executable and kernel-reducible; timestamps
(Date.getTime() / Date.now()) are integers in milliseconds, with the date
parsing of the platform left outside the model; JavaScript truthiness of
strings and numbers is modelled explicitly where the code relies on it
(an empty string and the number 0 are falsy).
-/

namespace Sslko

/-! ## JavaScript string primitives over character lists -/

/-- Splitter for JS String.prototype.split with a non-empty separator
(the separator is the list cons c cs): leftmost, non-overlapping matches,
scanning resumes after each match. The accumulator holds the current piece
in reverse; the fuel (at least the input length) makes the recursion
structural, every step consumes at least one character. -/
def splitOnListAux (c : Char) (cs : List Char) : Nat → List Char → List Char → List (List Char)
  | _, [], acc => [acc.reverse]
  | 0, l, acc => [acc.reverse ++ l]
  | fuel + 1, d :: rest, acc =>
    if (c :: cs).isPrefixOf (d :: rest) then
      acc.reverse :: splitOnListAux c cs fuel ((d :: rest).drop (c :: cs).length) []
    else
      splitOnListAux c cs fuel rest (d :: acc)

/-- JS s.split(sep) for a non-empty sep (the code never splits on ""). -/
def jsSplit (s : String) (sep : String) : List String :=
  match sep.data with
  | [] => [s]
  | c :: cs => (splitOnListAux c cs s.data.length s.data []).map List.asString

/-- JS s.startsWith(p). -/
def jsStartsWith (s : String) (p : String) : Bool :=
  p.data.isPrefixOf s.data

/-- JS s.substring(n) (drop the first n characters). -/
def jsDrop (s : String) (n : Nat) : String :=
  (s.data.drop n).asString

/-- JS s.trim(). -/
def jsTrim (s : String) : String :=
  (((s.data.dropWhile Char.isWhitespace).reverse.dropWhile Char.isWhitespace).reverse).asString

/-- JS parts.join "." as used by host.split(".").slice(1).join("."). -/
def joinDot : List String → String
  | [] => ""
  | [x] => x
  | x :: xs => x ++ "." ++ joinDot xs

/-- Numeric value of a digit string, as parseInt(part, 10) on all-digit input. -/
def digitsVal (l : List Char) : Nat :=
  l.foldl (fun a c => a * 10 + (c.toNat - '0'.toNat)) 0

/-- True when the character list contains two adjacent colons,
modelling JS ip.includes("::"). -/
def hasAdjacentColons : List Char → Bool
  | ':' :: ':' :: _ => true
  | _ :: rest => hasAdjacentColons rest
  | [] => false

/-- JS truthiness of an optional string field: present and non-empty. -/
def strTruthy : Option String → Bool
  | some s => s != ""
  | none => false

/-! ## Certificate data model (node:tls PeerCertificate as read by the code) -/

/-- The distinguished-name block (certificate.subject / certificate.issuer);
the six identity fields the code reads, each independently optional. -/
structure SubjectDN where
  CN : Option String := none
  C : Option String := none
  ST : Option String := none
  L : Option String := none
  O : Option String := none
  OU : Option String := none
deriving Repr, DecidableEq

/-- The raw peer certificate fields the pipeline reads. valid_from/valid_to
are the parsed timestamps in milliseconds (new Date(valid_from).getTime()). -/
structure RawCert where
  subject : Option SubjectDN := none
  issuer : Option SubjectDN := none
  subjectaltname : Option String := none
  valid_from : Int := 0
  valid_to : Int := 0
deriving Repr, DecidableEq

/-! ## Hostname matcher (get-certificate-info.ts: isValidIPv4, isValidIPv6,
isIPAddress, verifyHostname) -/

/-- isValidIPv4: the regex test (exactly four dot-separated groups of one to
three digits) plus the 0..255 range check on each part. -/
def isValidIPv4 (ip : String) : Bool :=
  let parts := jsSplit ip "."
  decide (parts.length = 4) &&
  parts.all (fun p => decide (1 ≤ p.data.length) && decide (p.data.length ≤ 3) &&
    p.data.all Char.isDigit) &&
  parts.all (fun p => decide (digitsVal p.data ≤ 255))

/-- Hexadecimal digit as in the character class of the IPv6 regex. -/
def isHexDigit (c : Char) : Bool :=
  c.isDigit || (decide ('a' ≤ c) && decide (c ≤ 'f')) || (decide ('A' ≤ c) && decide (c ≤ 'F'))

/-- isValidIPv6: the simplified regex (eight colon-separated hex groups,
or the literals ::1 / ::) or any string containing a double colon. -/
def isValidIPv6 (ip : String) : Bool :=
  (let parts := jsSplit ip ":"
   decide (parts.length = 8) &&
   parts.all (fun p => decide (1 ≤ p.data.length) && decide (p.data.length ≤ 4) &&
     p.data.all isHexDigit)) ||
  (ip == "::1") || (ip == "::") || hasAdjacentColons ip.data

/-- isIPAddress: IPv4 or IPv6. -/
def isIPAddress (address : String) : Bool :=
  isValidIPv4 address || isValidIPv6 address

/-- The inner isHostnameMatch of verifyHostname: exact match; an IP host
matches only exactly; otherwise single-label wildcard matching (the
certificate name starts with "*." and has the same label count as the host,
and the host minus its leftmost label equals the name minus "*."). -/
def isHostnameMatch (certName : String) (host : String) : Bool :=
  if certName == host then true
  else if isIPAddress host then false
  else if jsStartsWith certName "*." &&
          decide ((jsSplit host ".").length = (jsSplit certName ".").length) then
    joinDot ((jsSplit host ".").drop 1) == jsDrop certName 2
  else false

/-- A typed Subject-Alternative-Name entry. -/
inductive SanType where
  | dns
  | ip
deriving Repr, DecidableEq

/-- One entry of the subjectaltname string: a "DNS:"-prefixed name, an
"IP Address:"-prefixed address (trimmed), or dropped. -/
def parseAltName (name : String) : Option (SanType × String) :=
  if jsStartsWith name "DNS:" then some (SanType.dns, jsDrop name 4)
  else if jsStartsWith name "IP Address:" then some (SanType.ip, jsTrim (jsDrop name 11))
  else none

/-- The typed SAN list: split on ", ", parse, drop unrecognized entries. -/
def parseAltNames (san : String) : List (SanType × String) :=
  (jsSplit san ", ").filterMap parseAltName

/-- verifyHostname (get-certificate-info.ts). The Common-Name branch fires
only for a truthy CN; the SAN branch only for a truthy subjectaltname; for an
IP host only IP-typed entries are compared (exactly), for a domain host only
DNS-typed entries (with the exact-or-wildcard rule). -/
def verifyHostname (host : String) (certificate : RawCert) : Bool :=
  (match certificate.subject with
   | some subj =>
     match subj.CN with
     | some cn => (cn != "") && isHostnameMatch cn host
     | none => false
   | none => false) ||
  (match certificate.subjectaltname with
   | some san =>
     if san == "" then false
     else
       let altNames := parseAltNames san
       if isIPAddress host then
         (altNames.filter (fun n => n.1 == SanType.ip)).any (fun n => n.2 == host)
       else
         (altNames.filter (fun n => n.1 == SanType.dns)).any
           (fun n => isHostnameMatch n.2 host)
   | none => false)

/-! ## Expiry and self-signature heuristics (get-certificate-info.ts) -/

/-- isCertificateNearExpiry: the certificate expires within warningDays days
(validTo.getTime() - Date.now() <= warningDays in milliseconds). -/
def isCertificateNearExpiry (validToDate : Int) (now : Int) (warningDays : Int := 30) : Bool :=
  decide (validToDate - now ≤ warningDays * 24 * 60 * 60 * 1000)

/-- The present fields of a distinguished-name block with their JSON keys, in
the fixed key order of the model; JSON.stringify equality of two subject
objects built by the same parser is equality of these association lists. -/
def dnFields (d : SubjectDN) : List (String × String) :=
  (match d.CN with | some v => [("CN", v)] | none => []) ++
  (match d.C with | some v => [("C", v)] | none => []) ++
  (match d.ST with | some v => [("ST", v)] | none => []) ++
  (match d.L with | some v => [("L", v)] | none => []) ++
  (match d.O with | some v => [("O", v)] | none => []) ++
  (match d.OU with | some v => [("OU", v)] | none => [])

/-- isSelfSignedCertificate: false when subject or issuer is absent; when both
Common Names are truthy (present and non-empty) compare them; otherwise
compare the whole subject and issuer blocks (JSON.stringify equality). -/
def isSelfSignedCertificate (certificate : RawCert) : Bool :=
  match certificate.subject, certificate.issuer with
  | some s, some i =>
    if strTruthy s.CN && strTruthy i.CN then s.CN == i.CN
    else dnFields s == dnFields i
  | _, _ => false

/-! ## Certificate normalizers -/

/-- Milliseconds in one day (constants.ts DAY_IN_MILLISECOND = 8.64e7). -/
def DAY_IN_MILLISECOND : Int := 86400000

/-- Math.ceil(a / DAY_IN_MILLISECOND) on an integral numerator, as integer
arithmetic (Int.ediv is the floor for a positive divisor). -/
def ceilDivDay (a : Int) : Int :=
  -((-a) / DAY_IN_MILLISECOND)

/-- getDaysLeft (convert-peer-certificate.ts): ceil of (validTo - now) in
days; negative when already expired. -/
def getDaysLeft (validTo : Int) (now : Int) : Int :=
  ceilDivDay (validTo - now)

/-- getDaysTotal (convert-peer-certificate.ts): ceil of the absolute day span
between the two dates. -/
def getDaysTotal (validFrom : Int) (validTo : Int) : Int :=
  ceilDivDay |validFrom - validTo|

/-- One pass of subjectaltname.replace(/DNS:|IP Address:/g, ""): scan left to
right, deleting each occurrence of either prefix, resuming after the deleted
match; fuel as in the splitter. -/
def stripSanMarks : Nat → List Char → List Char
  | _, [] => []
  | 0, l => l
  | fuel + 1, d :: rest =>
    if ("DNS:".data).isPrefixOf (d :: rest) then
      stripSanMarks fuel ((d :: rest).drop 4)
    else if ("IP Address:".data).isPrefixOf (d :: rest) then
      stripSanMarks fuel ((d :: rest).drop 11)
    else d :: stripSanMarks fuel rest

/-- subjectaltname.replace(/DNS:|IP Address:/g, "").split(", "). -/
def sanDisplayList (san : String) : List String :=
  jsSplit ((stripSanMarks san.data.length san.data).asString) ", "

/-- The record produced by convertPeerCertificate (types.ts
PeerCertificateConverted): the dates and day counts, the decoded SAN list,
and the passthrough fields; the raw issuerCertificate link is deleted by the
conversion ("Remove issuerCertificate to avoid circular reference"), so the
record deliberately has no issuer-certificate field. -/
structure ConvertedCert where
  validFromDate : Int
  validToDate : Int
  expired : Bool
  daysLeft : Int
  daysTotal : Int
  validFor : Option (List String)
  subject : Option SubjectDN
  issuer : Option SubjectDN
  subjectaltname : Option String
deriving Repr, DecidableEq

/-- convertPeerCertificate (convert-peer-certificate.ts): validFor is absent
(undefined) when subjectaltname is falsy. -/
def convertPeerCertificate (certificate : RawCert) (now : Int) : ConvertedCert :=
  { validFromDate := certificate.valid_from
    validToDate := certificate.valid_to
    expired := decide (certificate.valid_to < now)
    daysLeft := getDaysLeft certificate.valid_to now
    daysTotal := getDaysTotal certificate.valid_from certificate.valid_to
    validFor :=
      match certificate.subjectaltname with
      | some san => if san == "" then none else some (sanDisplayList san)
      | none => none
    subject := certificate.subject
    issuer := certificate.issuer
    subjectaltname := certificate.subjectaltname }

/-- The subject/issuer mapping of certificate-info.ts (SubjectMetadata). -/
structure SubjectMetadata where
  common_name : Option String := none
  country : Option String := none
  state_or_province : Option String := none
  locality : Option String := none
  organization : Option String := none
  organizational_unit : Option String := none
deriving Repr, DecidableEq

/-- subject?.CN and friends on a possibly absent block. -/
def toSubjectMetadata (block : Option SubjectDN) : SubjectMetadata :=
  { common_name := block.bind SubjectDN.CN
    country := block.bind SubjectDN.C
    state_or_province := block.bind SubjectDN.ST
    locality := block.bind SubjectDN.L
    organization := block.bind SubjectDN.O
    organizational_unit := block.bind SubjectDN.OU }

/-- The result record of certificate-info.ts (its CertificateInfo interface):
either the normalized certificate data (valid true) or an error record
(valid false with error message and optional code). -/
structure CertInfoResult where
  valid : Bool
  error : Option String := none
  code : Option String := none
  expired : Option Bool := none
  validFor : Option (List String) := none
  subject : Option SubjectMetadata := none
  issuer : Option SubjectMetadata := none
  validFrom : Option Int := none
  validTo : Option Int := none
  daysLeft : Option Int := none
  daysTotal : Option Int := none
deriving Repr, DecidableEq

/-- fromPeerCertificate (certificate-info.ts): validFor falls back to the
empty list when subjectaltname is falsy. -/
def fromPeerCertificate (certificate : RawCert) (now : Int) : CertInfoResult :=
  { valid := true
    validFor := some
      (match certificate.subjectaltname with
       | some san => if san == "" then [] else sanDisplayList san
       | none => [])
    expired := some (decide (certificate.valid_to < now))
    subject := some (toSubjectMetadata certificate.subject)
    issuer := some (toSubjectMetadata certificate.issuer)
    validFrom := some certificate.valid_from
    validTo := some certificate.valid_to
    daysLeft := some (getDaysLeft certificate.valid_to now)
    daysTotal := some (getDaysTotal certificate.valid_from certificate.valid_to) }

/-! ## The fetcher boundary and the recovering facade -/

/-- Outcome of the awaited certificate fetch: a certificate, a rejection with
a CertificateError (message and code), or any other thrown failure. -/
inductive FetchOutcome where
  | success (certificate : RawCert)
  | certError (message : String) (code : String)
  | failure
deriving Repr, DecidableEq

/-- The generic message of the non-CertificateError branch of the catch. -/
def genericFetchErrorMsg : String :=
  "An unexpected error occurred while retrieving the certificate."

/-- The recovering facade of get-certificate.ts (the try/catch around
getCertificateWithTls + fromPeerCertificate): a CertificateError becomes
a valid:false record carrying its message and code, any other failure a
valid:false record with the generic message and no code. Totality of this
function is the never-raises contract. -/
def getCertificate (outcome : FetchOutcome) (now : Int) : CertInfoResult :=
  match outcome with
  | FetchOutcome.success certificate => fromPeerCertificate certificate now
  | FetchOutcome.certError message code =>
    { valid := false, error := some message, code := some code }
  | FetchOutcome.failure =>
    { valid := false, error := some genericFetchErrorMsg }

/-- MIN_PORT / MAX_PORT (constants.ts). -/
def MIN_PORT : Int := 1

def MAX_PORT : Int := 65535

/-- The INVALID_PORT error message thrown by getCertificate. -/
def invalidPortMsg : String :=
  "Invalid port number. Port must be between 1 and 65535."

/-- What the pre-connect stage of the fetcher does with the merged port:
throw before any I/O, or reach tls.connect. -/
inductive FetchAttempt where
  | invalidPort (message : String) (code : String)
  | connect (port : Int)
deriving Repr, DecidableEq

/-- The port guard at the top of getCertificate (get-certificate.ts) and
getCertificateWithTls (with-tls.ts): if (port && (port < MIN_PORT || port >
MAX_PORT)) throw INVALID_PORT, else proceed to tls.connect. The conjunct
port is JS truthiness: the guard is skipped when port is 0. -/
def getCertificatePortCheck (port : Int) : FetchAttempt :=
  if port ≠ 0 ∧ (port < MIN_PORT ∨ port > MAX_PORT) then
    FetchAttempt.invalidPort invalidPortMsg "INVALID_PORT"
  else
    FetchAttempt.connect port

/-! ## The evaluation pipeline (get-certificate-info.ts getCertificateInfo) -/

/-- The raw certificate chain as linked by issuerCertificate: a leaf with no
link, a link to a further chain, or a self-signed root whose link points back
to the certificate itself (the cyclic case node:tls produces). -/
inductive RawChain where
  | leafOnly (certificate : RawCert)
  | withIssuer (certificate : RawCert) (issuer : RawChain)
  | selfRoot (certificate : RawCert)
deriving Repr, DecidableEq

/-- The certificate at the head of the chain. -/
def RawChain.headCert : RawChain → RawCert
  | RawChain.leafOnly c => c
  | RawChain.withIssuer c _ => c
  | RawChain.selfRoot c => c

/-- Dereferencing certificate.issuerCertificate: absent for a plain leaf, the
linked chain otherwise; for a self-referential root it is the root itself. -/
def RawChain.issuerLink : RawChain → Option RawChain
  | RawChain.leafOnly _ => none
  | RawChain.withIssuer _ i => some i
  | RawChain.selfRoot c => some (RawChain.selfRoot c)

/-- The evaluation report (types.ts CertificateInfo): the converted
certificate plus validity, errors, warnings, and at most one converted
issuer level (the conversion has already severed deeper links). -/
structure CertificateInfo extends ConvertedCert where
  valid : Bool
  errors : List String
  warnings : List String
  issuerCertificate : Option ConvertedCert := none
deriving Repr, DecidableEq

/-- certificate.subject && certificate.subject.CN as a truthiness test. -/
def hasTruthyCN (certificate : RawCert) : Bool :=
  match certificate.subject with
  | some s => strTruthy s.CN
  | none => false

def noCNMsg : String := "Certificate does not have a Common Name (CN)"

def notYetValidMsg : String := "Certificate is not yet valid"

def expiredMsg : String := "Certificate has expired"

def nearExpiryMsg (daysLeft : Int) : String :=
  "Certificate expires in " ++ (toString daysLeft ++ " days")

def hostnameMismatchMsg (host : String) : String :=
  "Hostname \"" ++ (host ++
    "\" does not match the certificate's Common Name (CN) or Subject Alternative Names (SANs)")

def selfSignedMsg : String := "Certificate is self-signed"

/-- getCertificateInfo (get-certificate-info.ts), as a function of the host,
the fetched chain and the clock: convert the leaf (attaching one converted
issuer level when the link is present), then run every rule, appending its
message and clearing valid on each fatal finding, in program order. -/
def getCertificateInfo (host : String) (chain : RawChain) (now : Int) : CertificateInfo :=
  let certificate := chain.headCert
  let conv := convertPeerCertificate certificate now
  let noCN := !hasTruthyCN certificate
  let notYet := decide (now < conv.validFromDate)
  let isExpired := decide (now > conv.validToDate)
  let expiredField := if isExpired then true else conv.expired
  let nearExpiry := !expiredField && isCertificateNearExpiry conv.validToDate now 30
  let hostMismatch := !verifyHostname host certificate
  let selfSigned := isSelfSignedCertificate certificate
  { toConvertedCert := { conv with expired := expiredField }
    valid := !(notYet || isExpired || hostMismatch || selfSigned)
    errors :=
      (if notYet then [notYetValidMsg] else []) ++
      (if isExpired then [expiredMsg] else []) ++
      (if hostMismatch then [hostnameMismatchMsg host] else []) ++
      (if selfSigned then [selfSignedMsg] else [])
    warnings :=
      (if noCN then [noCNMsg] else []) ++
      (if nearExpiry then [nearExpiryMsg conv.daysLeft] else [])
    issuerCertificate :=
      chain.issuerLink.map (fun i => convertPeerCertificate i.headCert now) }

/-- Nesting depth of a report: itself plus its issuer level when present. -/
def infoDepth (info : CertificateInfo) : Nat :=
  1 + (match info.issuerCertificate with | some _ => 1 | none => 0)

/-- Spec-side restatement of claim C4 (from the spec's words, to be compared
with verifyHostname): for an IP-literal host, success is exactly a Common
Name equal to the host, or some IP-typed SAN entry equal to the host. -/
def ipHostSpecMatch (host : String) (certificate : RawCert) : Bool :=
  (match certificate.subject with
   | some s =>
     match s.CN with
     | some cn => cn == host
     | none => false
   | none => false) ||
  (match certificate.subjectaltname with
   | some san => (parseAltNames san).any (fun n => n.1 == SanType.ip && n.2 == host)
   | none => false)

/-! ## Helper lemmas -/

theorem isIPAddress_ne_empty (host : String) (h : isIPAddress host = true) : host ≠ "" := by
  intro he
  subst he
  exact absurd h (by decide)

theorem isHostnameMatch_of_ip (certName host : String) (h : isIPAddress host = true) :
    isHostnameMatch certName host = (certName == host) := by
  unfold isHostnameMatch
  cases hc : certName == host with
  | true => simp [hc]
  | false => simp [hc, h]

theorem any_filter_eq {α : Type} (p q : α → Bool) (l : List α) :
    (l.filter p).any q = l.any (fun a => p a && q a) := by
  induction l with
  | nil => rfl
  | cons a l ih =>
    cases hp : p a <;> simp [List.filter_cons, hp, ih]

theorem nearExpiryMsg_ne_noCNMsg (n : Int) : nearExpiryMsg n ≠ noCNMsg := by
  intro h
  have h2 := congrArg (fun s => s.data.take 23) h
  simp only [nearExpiryMsg, noCNMsg, String.data_append] at h2
  rw [List.take_left' (by decide)] at h2
  exact absurd h2 (by decide)

theorem hostnameMismatchMsg_ne_selfSignedMsg (host : String) :
    hostnameMismatchMsg host ≠ selfSignedMsg := by
  intro h
  have h2 := congrArg (fun s => s.data.take 10) h
  simp only [hostnameMismatchMsg, selfSignedMsg, String.data_append] at h2
  rw [List.take_left' (by decide)] at h2
  exact absurd h2 (by decide)

theorem ceilDivDay_le_iff (a b : Int) : ceilDivDay a ≤ b ↔ a ≤ b * 86400000 := by
  simp only [ceilDivDay, DAY_IN_MILLISECOND]
  omega

theorem mem_ite_singleton {a b : String} {c : Bool} :
    (a ∈ if c then [b] else []) ↔ (c = true ∧ a = b) := by
  cases c <;> simp

/-! ## Claims -/

/-- C1: the facade never raises: a CertificateError rejected by the
certificate fetcher is returned as a valid:false record carrying the error
message and its code, any other failure as a valid:false record with the
generic message and no code, and a successful fetch yields a valid:true
record with no error field (getCertificate is a total function of the fetch
outcome). -/
theorem claim1_facade_never_raises (now : Int) (message code : String)
    (certificate : RawCert) :
    getCertificate (FetchOutcome.certError message code) now =
      { valid := false, error := some message, code := some code } ∧
    getCertificate FetchOutcome.failure now =
      { valid := false, error := some genericFetchErrorMsg, code := none } ∧
    (getCertificate (FetchOutcome.success certificate) now).valid = true ∧
    (getCertificate (FetchOutcome.success certificate) now).error = none :=
  ⟨rfl, rfl, rfl, rfl⟩

/-- C2 counterexample: the claim says every port outside [1, 65535],
including port 0, fails with INVALID_PORT before any I/O; but the guard
if (port && ...) treats the number 0 as falsy, so the fetch with port 0
skips validation and proceeds to the connection attempt. -/
theorem claim2_counterexample :
    getCertificatePortCheck 0 = FetchAttempt.connect 0 := by decide

/-- C2 amended: every nonzero port outside [1, 65535] fails with
INVALID_PORT before any network I/O, every port inside [1, 65535] proceeds
to the connection attempt, and port 0 (falsy in the JS guard) bypasses the
validation and also proceeds to the connection attempt. -/
theorem claim2_amended (p : Int) :
    (1 ≤ p ∧ p ≤ 65535 → getCertificatePortCheck p = FetchAttempt.connect p) ∧
    (p < 0 ∨ 65535 < p →
      getCertificatePortCheck p = FetchAttempt.invalidPort invalidPortMsg "INVALID_PORT") ∧
    getCertificatePortCheck 0 = FetchAttempt.connect 0 := by
  refine ⟨fun h => ?_, fun h => ?_, by decide⟩
  · simp only [getCertificatePortCheck, MIN_PORT, MAX_PORT]
    rw [if_neg (by omega)]
  · simp only [getCertificatePortCheck, MIN_PORT, MAX_PORT]
    rw [if_pos (by omega)]

theorem claim2_witness :
    getCertificatePortCheck 443 = FetchAttempt.connect 443 ∧
    getCertificatePortCheck 70000 = FetchAttempt.invalidPort invalidPortMsg "INVALID_PORT" ∧
    getCertificatePortCheck (-1) = FetchAttempt.invalidPort invalidPortMsg "INVALID_PORT" :=
  ⟨(claim2_amended 443).1 (by omega), (claim2_amended 70000).2.1 (by omega),
    (claim2_amended (-1)).2.1 (by omega)⟩

/-- C3 counterexample: the claim says verifyHostname("x.a.b.com",
CN="*.a.b.com") is false; in fact the wildcard covers exactly the one
leftmost label, the label counts agree (4 = 4) and the remainders agree
(a.b.com), so the match succeeds. -/
theorem claim3_counterexample :
    verifyHostname "x.a.b.com" { subject := some { CN := some "*.a.b.com" } } = true := by
  decide

/-- C3 amended: verifyHostname("x.a.b.com", CN="*.a.b.com") is true, since
the wildcard matches exactly the single leftmost label; the single-label
rule instead rejects a host with an extra label (w.x.a.b.com) and the apex
itself (a.b.com). -/
theorem claim3_amended :
    verifyHostname "x.a.b.com" { subject := some { CN := some "*.a.b.com" } } = true ∧
    verifyHostname "w.x.a.b.com" { subject := some { CN := some "*.a.b.com" } } = false ∧
    verifyHostname "a.b.com" { subject := some { CN := some "*.a.b.com" } } = false :=
  ⟨by decide, by decide, by decide⟩

/-- C5 counterexample: the claim says the normalized record of a certificate
without SAN has validFor present and empty; convertPeerCertificate (the
normalizer of the getCertificateInfo pipeline) instead leaves validFor
absent (undefined) when subjectaltname is missing. -/
theorem claim5_counterexample :
    (convertPeerCertificate { } 0).validFor = none ∧
    (convertPeerCertificate { } 0).validFor ≠ some [] :=
  ⟨by decide, by decide⟩

/-- C5 amended: for a certificate whose SAN field is absent, the
fromPeerCertificate normalizer (certificate-info.ts) yields validFor present
and equal to the empty sequence, while the convertPeerCertificate normalizer
(convert-peer-certificate.ts, used by getCertificateInfo) leaves validFor
absent. -/
theorem claim5_amended (certificate : RawCert) (now : Int)
    (h : certificate.subjectaltname = none) :
    (convertPeerCertificate certificate now).validFor = none ∧
    (fromPeerCertificate certificate now).validFor = some [] := by
  simp [convertPeerCertificate, fromPeerCertificate, h]

theorem claim5_witness :
    (convertPeerCertificate { subject := some { CN := some "a" } } 0).validFor = none ∧
    (fromPeerCertificate { subject := some { CN := some "a" } } 0).validFor = some [] :=
  claim5_amended { subject := some { CN := some "a" } } 0 rfl

/-- C10: the report chain is truncated at depth one: the conversion deletes
the raw issuer link (ConvertedCert carries no issuer-certificate field), the
facade re-attaches exactly one converted level, so every report has nesting
depth at most two, a plain leaf gets no nested record, a longer chain is cut
after the first issuer, and a self-referential root yields exactly one
nested copy of its own conversion rather than an infinite descent. -/
theorem claim10_truncated_chain (host : String) (now : Int) (chain : RawChain)
    (c c2 : RawCert) (rest : RawChain) :
    infoDepth (getCertificateInfo host chain now) ≤ 2 ∧
    (getCertificateInfo host (RawChain.selfRoot c) now).issuerCertificate
      = some (convertPeerCertificate c now) ∧
    (getCertificateInfo host (RawChain.leafOnly c) now).issuerCertificate = none ∧
    (getCertificateInfo host (RawChain.withIssuer c (RawChain.withIssuer c2 rest)) now).issuerCertificate
      = some (convertPeerCertificate c2 now) := by
  refine ⟨?_, rfl, rfl, rfl⟩
  cases chain <;> simp [infoDepth, getCertificateInfo, RawChain.issuerLink]

/-- C8: the evaluation runs every rule without short-circuiting: when the
certificate is expired, the hostname does not match and the certificate is
self-signed, the single report carries all three error strings. -/
theorem claim8_exhaustive_evaluation (host : String) (chain : RawChain) (now : Int)
    (hexp : chain.headCert.valid_to < now)
    (hhost : verifyHostname host chain.headCert = false)
    (hself : isSelfSignedCertificate chain.headCert = true) :
    expiredMsg ∈ (getCertificateInfo host chain now).errors ∧
    hostnameMismatchMsg host ∈ (getCertificateInfo host chain now).errors ∧
    selfSignedMsg ∈ (getCertificateInfo host chain now).errors := by
  simp [getCertificateInfo, convertPeerCertificate, List.mem_append,
    mem_ite_singleton, hexp, hhost, hself]

theorem claim8_witness :
    expiredMsg ∈ (getCertificateInfo "y" (RawChain.leafOnly
      { subject := some { CN := some "x" }, issuer := some { CN := some "x" },
        valid_from := -10, valid_to := -1 }) 0).errors ∧
    hostnameMismatchMsg "y" ∈ (getCertificateInfo "y" (RawChain.leafOnly
      { subject := some { CN := some "x" }, issuer := some { CN := some "x" },
        valid_from := -10, valid_to := -1 }) 0).errors ∧
    selfSignedMsg ∈ (getCertificateInfo "y" (RawChain.leafOnly
      { subject := some { CN := some "x" }, issuer := some { CN := some "x" },
        valid_from := -10, valid_to := -1 }) 0).errors :=
  claim8_exhaustive_evaluation "y" _ 0 (by decide) (by decide) (by decide)

/-- C9: in every report, valid equals (errors.length == 0): the errors list
is non-empty exactly when valid is false, whatever the rule outcomes. -/
theorem claim9_valid_iff_no_errors (host : String) (chain : RawChain) (now : Int) :
    (getCertificateInfo host chain now).valid
      = ((getCertificateInfo host chain now).errors.length == 0) ∧
    ((getCertificateInfo host chain now).errors ≠ [] ↔
      (getCertificateInfo host chain now).valid = false) := by
  simp only [getCertificateInfo]
  by_cases h1 : now < (convertPeerCertificate chain.headCert now).validFromDate <;>
    by_cases h2 : now > (convertPeerCertificate chain.headCert now).validToDate <;>
    by_cases h3 : verifyHostname host chain.headCert = true <;>
    by_cases h4 : isSelfSignedCertificate chain.headCert = true <;>
    simp [h1, h2, h3, h4]

/-- C6 counterexample: the claim says no near-expiry warning is emitted when
daysLeft equals 0; at now = validTo the certificate is not expired
(now > validTo is false), the near-expiry test fires (0 <= 30 days), and the
report carries the warning "Certificate expires in 0 days". -/
theorem claim6_counterexample :
    (getCertificateInfo "a.com" (RawChain.leafOnly
      { subject := some { CN := some "a.com" }, issuer := some { CN := some "b.com" },
        valid_from := -86400000, valid_to := 0 }) 0).warnings
      = ["Certificate expires in 0 days"] ∧
    (getCertificateInfo "a.com" (RawChain.leafOnly
      { subject := some { CN := some "a.com" }, issuer := some { CN := some "b.com" },
        valid_from := -86400000, valid_to := 0 }) 0).daysLeft = 0 ∧
    (getCertificateInfo "a.com" (RawChain.leafOnly
      { subject := some { CN := some "a.com" }, issuer := some { CN := some "b.com" },
        valid_from := -86400000, valid_to := 0 }) 0).expired = false :=
  ⟨by decide, by decide, by decide⟩

/-- C6 amended: the report carries the warning "Certificate expires in N
days" (N = daysLeft) exactly when the certificate is not expired and
daysLeft <= 30 — that is for 0 <= daysLeft <= 30, the boundary daysLeft = 0
(now = validTo exactly) included, not only 0 < daysLeft. -/
theorem claim6_amended (host : String) (chain : RawChain) (now : Int) :
    (nearExpiryMsg (getCertificateInfo host chain now).daysLeft ∈
      (getCertificateInfo host chain now).warnings) ↔
    ((getCertificateInfo host chain now).expired = false ∧
     (getCertificateInfo host chain now).daysLeft ≤ 30) := by
  have hmsg := nearExpiryMsg_ne_noCNMsg
  simp only [getCertificateInfo, convertPeerCertificate, getDaysLeft, isCertificateNearExpiry]
  by_cases hexp : chain.headCert.valid_to < now
  · simp [hexp, List.mem_append, mem_ite_singleton, hmsg]
  · by_cases hnear : chain.headCert.valid_to - now ≤ 30 * 24 * 60 * 60 * 1000
    · simp [hexp, hnear, List.mem_append, mem_ite_singleton, hmsg, ceilDivDay_le_iff]
    · simp [hexp, hnear, List.mem_append, mem_ite_singleton, hmsg, ceilDivDay_le_iff]

/-- C7 counterexample: the claim says a certificate whose subject and issuer
Common Names are both present and equal is flagged self-signed; with both
Common Names present but empty (and equal), the JS truthiness guard skips
the Common-Name comparison and the differing full blocks are compared
instead, so the certificate is not flagged. -/
theorem claim7_counterexample :
    isSelfSignedCertificate
      { subject := some { CN := some "", O := some "A" },
        issuer := some { CN := some "", O := some "B" } } = false := by
  decide

/-- C7 amended: the evaluation flags "Certificate is self-signed" exactly
when isSelfSignedCertificate holds, and that predicate holds exactly when
subject and issuer are both present and either both Common Names are truthy
(present and non-empty) and equal, or at least one Common Name is absent or
empty and the full subject field-set equals the full issuer field-set. -/
theorem claim7_amended (host : String) (chain : RawChain) (now : Int) :
    (selfSignedMsg ∈ (getCertificateInfo host chain now).errors ↔
      isSelfSignedCertificate chain.headCert = true) ∧
    (∀ c : RawCert, isSelfSignedCertificate c = true ↔
      ∃ s i, c.subject = some s ∧ c.issuer = some i ∧
        ((strTruthy s.CN = true ∧ strTruthy i.CN = true ∧ s.CN = i.CN) ∨
         (¬(strTruthy s.CN = true ∧ strTruthy i.CN = true) ∧ dnFields s = dnFields i))) := by
  constructor
  · have h1 : selfSignedMsg ≠ notYetValidMsg := by decide
    have h2 : selfSignedMsg ≠ expiredMsg := by decide
    have h3 : selfSignedMsg ≠ hostnameMismatchMsg host :=
      fun h => hostnameMismatchMsg_ne_selfSignedMsg host h.symm
    simp [getCertificateInfo, List.mem_append, mem_ite_singleton, h1, h2, h3]
  · intro c
    cases hs : c.subject with
    | none => simp [isSelfSignedCertificate, hs]
    | some s =>
      cases hi : c.issuer with
      | none => simp [isSelfSignedCertificate, hs, hi]
      | some i =>
        simp only [isSelfSignedCertificate, hs, hi, Option.some.injEq]
        by_cases ht : strTruthy s.CN = true ∧ strTruthy i.CN = true
        · rw [if_pos (by simp [ht.1, ht.2])]
          simp only [beq_iff_eq]
          constructor
          · intro hcn
            exact ⟨s, i, rfl, rfl, Or.inl ⟨ht.1, ht.2, hcn⟩⟩
          · rintro ⟨s', i', rfl, rfl, hcase⟩
            rcases hcase with ⟨_, _, hcn⟩ | ⟨hnot, _⟩
            · exact hcn
            · exact absurd ht hnot
        · rw [if_neg (by simp only [Bool.and_eq_true]; exact ht)]
          simp only [beq_iff_eq]
          constructor
          · intro hdn
            exact ⟨s, i, rfl, rfl, Or.inr ⟨ht, hdn⟩⟩
          · rintro ⟨s', i', rfl, rfl, hcase⟩
            rcases hcase with ⟨hA, hB, _⟩ | ⟨_, hdn⟩
            · exact absurd ⟨hA, hB⟩ ht
            · exact hdn

/-- C4: for an IP-literal host, verifyHostname succeeds exactly when the
Common Name equals the host or an IP-typed SAN entry equals the host —
wildcard matching never applies, DNS-typed SAN entries are ignored
(verifyHostname coincides with the spec-side ipHostSpecMatch). -/
theorem claim4_ip_exact_match_only (host : String) (certificate : RawCert)
    (h : isIPAddress host = true) :
    verifyHostname host certificate = ipHostSpecMatch host certificate := by
  have hne : host ≠ "" := isIPAddress_ne_empty host h
  have hcncomp : ∀ cn : String, ((cn != "") && isHostnameMatch cn host) = (cn == host) := by
    intro cn
    rw [isHostnameMatch_of_ip cn host h]
    cases hq : cn == host with
    | false => simp [hq]
    | true =>
      have hcn : cn = host := by simpa using hq
      subst hcn
      simp [hne]
  unfold verifyHostname ipHostSpecMatch
  congr 1
  · cases certificate.subject with
    | none => rfl
    | some s =>
      cases hcn : s.CN with
      | none => simp [hcn]
      | some cn => simp [hcn, hcncomp cn]
  · cases certificate.subjectaltname with
    | none => rfl
    | some san =>
      by_cases hs : san = ""
      · subst hs
        have hpa : parseAltNames "" = [] := by decide
        simp [hpa]
      · have hsb : (san == "") = false := by simp [hs]
        simp [hsb, h, any_filter_eq]

theorem claim4_witness :
    verifyHostname "192.168.1.1" { subjectaltname := some "DNS:*.example.com" }
      = ipHostSpecMatch "192.168.1.1" { subjectaltname := some "DNS:*.example.com" } ∧
    verifyHostname "192.168.1.2" { subjectaltname := some "IP Address:192.168.1.1" }
      = ipHostSpecMatch "192.168.1.2" { subjectaltname := some "IP Address:192.168.1.1" } ∧
    ipHostSpecMatch "192.168.1.1" { subjectaltname := some "DNS:*.example.com" } = false ∧
    ipHostSpecMatch "192.168.1.2" { subjectaltname := some "IP Address:192.168.1.1" } = false :=
  ⟨claim4_ip_exact_match_only "192.168.1.1" { subjectaltname := some "DNS:*.example.com" }
      (by decide),
    claim4_ip_exact_match_only "192.168.1.2" { subjectaltname := some "IP Address:192.168.1.1" }
      (by decide),
    by decide, by decide⟩

end Sslko
